import Mathlib

/-!
Verification of the tool registry and request-dispatch layer of the
azure-devops-mcp server, together with selected tool-handler logic
(secret masking, top-limit defaulting, WIQL passthrough, project
resolution).

The embedding follows the TypeScript source: JavaScript values are
modelled by the inductive `Js` (with an explicit `undefined` constructor for
JavaScript `undefined`), zod schemas by the inductive `ZodSchema`,
`zodToJsonSchema` and zod's `safeParse` as total Lean functions, and the
MCP `CallToolRequest` handler (src/index.ts `main`) as the pure function
`callTool`.
-/

namespace AzureDevOpsMcp

/-- JavaScript values as they cross the MCP boundary. `undefined` models the
JavaScript `undefined` value (in particular an absent `arguments` field
or an absent object property). -/
inductive Js where
  | undefined
  | null
  | bool (b : Bool)
  | num (n : Int)
  | str (s : String)
  | arr (elems : List Js)
  | obj (fields : List (String × Js))

/-- Property lookup in a JavaScript object (first binding wins; absent
keys give `undefined`). -/
def jsLookup : List (String × Js) → String → Js
  | [], _ => .undefined
  | (k, v) :: rest, key => if k = key then v else jsLookup rest key

/-- `o[key]` on a JavaScript value: property access on objects,
`undefined` otherwise. -/
def jsGet : Js → String → Js
  | .obj fields, key => jsLookup fields key
  | _, _ => .undefined

/-- JavaScript truthiness of a value (`if (v)`). The numeric model uses
integers, so `NaN` does not arise. -/
def jsTruthy : Js → Bool
  | .undefined => false
  | .null => false
  | .bool b => b
  | .num n => n != 0
  | .str s => s != ""
  | .arr _ => true
  | .obj _ => true

/-- The JavaScript `a || b` operator. -/
def jsOr (a b : Js) : Js := if jsTruthy a then a else b

/-- The type name zod reports for a received value. -/
def jsTypeName : Js → String
  | .undefined => "undefined"
  | .null => "null"
  | .bool _ => "boolean"
  | .num _ => "number"
  | .str _ => "string"
  | .arr _ => "array"
  | .obj _ => "object"

mutual
/-- The JavaScript `String(v)` coercion (used by the dispatcher for
thrown non-`Error` values). -/
def jsToString : Js → String
  | .undefined => "undefined"
  | .null => "null"
  | .bool b => if b then "true" else "false"
  | .num n => toString n
  | .str s => s
  | .arr l => String.intercalate "," (jsToStringList l)
  | .obj _ => "[object Object]"

def jsToStringList : List Js → List String
  | [] => []
  | v :: rest => jsToString v :: jsToStringList rest
end

mutual
/-- Model of `JSON.stringify(v, null, 2)` used to render a successful
handler result into the response text. `undefined` is rendered as
`null` and the pretty-printing indentation and string escaping are
elided: no claim under verification depends on the exact rendering of a
successful payload. -/
def jsStringify : Js → String
  | .undefined => "null"
  | .null => "null"
  | .bool b => if b then "true" else "false"
  | .num n => toString n
  | .str s => "\"" ++ s ++ "\""
  | .arr l => "[" ++ String.intercalate "," (jsStringifyList l) ++ "]"
  | .obj kvs => "\x7b" ++ String.intercalate "," (jsStringifyFields kvs) ++ "\x7d"

def jsStringifyList : List Js → List String
  | [] => []
  | v :: rest => jsStringify v :: jsStringifyList rest

def jsStringifyFields : List (String × Js) → List String
  | [] => []
  | (k, v) :: rest => ("\"" ++ k ++ "\":" ++ jsStringify v) :: jsStringifyFields rest
end

mutual
/-- The zod schema shapes this code base constructs (src/tools/*.ts).
Each constructor mirrors one zod class checked by `zodToJsonSchema`
(src/index.ts lines 74-144): `ZodString`, `ZodNumber`, `ZodBoolean`,
`ZodArray`, `ZodEnum`, `ZodRecord`, `ZodObject`, `ZodOptional`,
`ZodDefault`. The `description` slot models `.describe(...)`, which zod
attaches to the outermost wrapper it is called on; `zodToJsonSchema`
only ever reads it on the leaf/array/enum/record branches, so a
description sitting on an optional/default wrapper is dropped, exactly
as in the source. `zOther` stands for any schema class not in the list
above, for which the generator falls through to its generic default. -/
inductive ZodSchema where
  | zString (description : Option String)
  | zNumber (description : Option String)
  | zBoolean (description : Option String)
  | zArray (element : ZodSchema) (description : Option String)
  | zEnum (options : List String) (description : Option String)
  | zRecord (valueSchema : ZodSchema) (description : Option String)
  | zObject (shape : ZodShape)
  | zOptional (inner : ZodSchema) (description : Option String)
  | zDefault (inner : ZodSchema) (defaultValue : Js) (description : Option String)
  | zOther

/-- The shape of a `z.object({...})`: an ordered sequence of
`key: schema` entries (`Object.entries(schema.shape)` order). Kept as a
mutually defined inductive so that traversals of a schema tree are
structurally recursive. -/
inductive ZodShape where
  | nil
  | cons (key : String) (schema : ZodSchema) (rest : ZodShape)
end

/-- Build a shape from a list of `key: schema` entries (the literal
object notation of the source). -/
def ZodShape.ofList : List (String × ZodSchema) → ZodShape
  | [] => .nil
  | (k, s) :: rest => .cons k s (ZodShape.ofList rest)

/-- The `Object.entries` view of a shape. -/
def ZodShape.toList : ZodShape → List (String × ZodSchema)
  | .nil => []
  | .cons k s rest => (k, s) :: rest.toList

/-- `schema instanceof z.ZodOptional` (an outermost optional wrapper). -/
def isOptionalTop : ZodSchema → Bool
  | .zOptional _ _ => true
  | _ => false

/-- `schema instanceof z.ZodDefault` (an outermost default wrapper). -/
def isDefaultTop : ZodSchema → Bool
  | .zDefault _ _ _ => true
  | _ => false

/-- The `required` array accumulated by the `zodToJsonSchema` object
loop: a key is pushed iff its field schema is neither a `ZodOptional`
nor a `ZodDefault` (src/index.ts line 85). -/
def requiredKeysOf (shape : ZodShape) : List String :=
  (shape.toList.filter fun p => !isOptionalTop p.2 && !isDefaultTop p.2).map Prod.fst

/-- `required: required.length > 0 ? required : undefined` — the key is
present in the generated document iff the list is non-empty. -/
def requiredField (req : List String) : List (String × Js) :=
  if req.isEmpty then [] else [("required", Js.arr (req.map Js.str))]

/-- `description: schema.description` — the key is present iff a
description was attached (an `undefined` value disappears on the
wire). -/
def descField : Option String → List (String × Js)
  | some d => [("description", Js.str d)]
  | none => []

/-- `{...inner, default: schema._def.defaultValue()}` for the
`ZodDefault` branch: appends a `default` entry to the inner document. -/
def jsAddField (j : Js) (k : String) (v : Js) : Js :=
  match j with
  | .obj fields => .obj (fields ++ [(k, v)])
  | other => other

mutual
/-- Model of `zodToJsonSchema` (src/index.ts lines 74-144): converts a
zod schema into the JSON-Schema discovery document served by the
`ListTools` handler. A schema class not recognized by any branch falls
through to the generic `{type: "object"}` default. -/
def zodToJsonSchema : ZodSchema → Js
  | .zObject shape =>
      Js.obj ([("type", Js.str "object"),
               ("properties", Js.obj (zodShapeToJson shape))]
              ++ requiredField (requiredKeysOf shape))
  | .zOptional inner _ => zodToJsonSchema inner
  | .zDefault inner dflt _ => jsAddField (zodToJsonSchema inner) "default" dflt
  | .zString d => Js.obj ([("type", Js.str "string")] ++ descField d)
  | .zNumber d => Js.obj ([("type", Js.str "number")] ++ descField d)
  | .zBoolean d => Js.obj ([("type", Js.str "boolean")] ++ descField d)
  | .zArray elem d =>
      Js.obj ([("type", Js.str "array"), ("items", zodToJsonSchema elem)] ++ descField d)
  | .zEnum options d =>
      Js.obj ([("type", Js.str "string"), ("enum", Js.arr (options.map Js.str))] ++ descField d)
  | .zRecord valueSchema d =>
      Js.obj ([("type", Js.str "object"),
               ("additionalProperties", zodToJsonSchema valueSchema)] ++ descField d)
  | .zOther => Js.obj [("type", Js.str "object")]

def zodShapeToJson : ZodShape → List (String × Js)
  | .nil => []
  | .cons k s rest => (k, zodToJsonSchema s) :: zodShapeToJson rest
end

/-- The `required` array of a generated discovery document (empty when
the key is absent or not an array of strings). -/
def docRequired (doc : Js) : List String :=
  match jsGet doc "required" with
  | .arr l => l.filterMap fun v => match v with | .str s => some s | _ => none
  | _ => []

/-- One entry of a zod validation error: a path into the input and a
human-readable message, mirroring zod's `ZodIssue`. -/
structure ZodIssue where
  path : List String
  message : String
deriving DecidableEq

/-- A single apostrophe character, used by zod enum error messages. -/
def sq : String := String.singleton (Char.ofNat 39)

/-- Wrap a string in apostrophes, as zod does in enum error messages. -/
def quoteSq (s : String) : String := sq ++ s ++ sq

/-- zod's default `invalid_type` message: `Required` when the input is
`undefined`, otherwise `Expected <kind>, received <kind>`. -/
def invalidTypeMessage (expected : String) (v : Js) : String :=
  match v with
  | .undefined => "Required"
  | _ => "Expected " ++ expected ++ ", received " ++ jsTypeName v

/-- zod's `invalid_enum_value` message. -/
def invalidEnumMessage (options : List String) (v : Js) : String :=
  "Invalid enum value. Expected " ++ String.intercalate " | " (options.map quoteSq)
    ++ ", received " ++ quoteSq (jsToString v)

/-- Parse every element of an array input with the given element
parser, collecting all issues (zod parses every element and
accumulates). -/
def parseElemsWith (f : Nat → Js → Except (List ZodIssue) Js) :
    Nat → List Js → Except (List ZodIssue) (List Js)
  | _, [] => .ok []
  | idx, v :: rest =>
      match f idx v, parseElemsWith f (idx + 1) rest with
      | .ok w, .ok ws => .ok (w :: ws)
      | .error es, .ok _ => .error es
      | .ok _, .error es => .error es
      | .error es, .error es2 => .error (es ++ es2)

/-- Parse every value of a record input with the given value parser;
keys pass through unchanged. -/
def parseValsWith (f : String → Js → Except (List ZodIssue) Js) :
    List (String × Js) → Except (List ZodIssue) (List (String × Js))
  | [] => .ok []
  | (k, v) :: rest =>
      match f k v, parseValsWith f rest with
      | .ok w, .ok ws => .ok ((k, w) :: ws)
      | .error es, .ok _ => .error es
      | .ok _, .error es => .error es
      | .error es, .error es2 => .error (es ++ es2)

mutual
/-- Model of zod v3 parsing for the schema shapes of this code base:
`zodParse schema path v` returns the parsed (defaulted) value or the
list of issues collected over the whole input.

Semantics mirrored from zod v3: an object input must itself be an
object (in particular `safeParse(undefined)` on any object schema fails
with `Required`); unknown object keys are stripped; optional fields
accept `undefined`; a `.default(d)` wrapper substitutes `d` for
`undefined` before parsing its inner schema; issues from sibling fields
and array elements are all collected. `zOther` stands for schema
classes this code base never constructs and accepts its input
unchanged. -/
def zodParse : ZodSchema → List String → Js → Except (List ZodIssue) Js
  | .zString _, path, v =>
      match v with
      | .str s => .ok (.str s)
      | _ => .error [⟨path, invalidTypeMessage "string" v⟩]
  | .zNumber _, path, v =>
      match v with
      | .num n => .ok (.num n)
      | _ => .error [⟨path, invalidTypeMessage "number" v⟩]
  | .zBoolean _, path, v =>
      match v with
      | .bool b => .ok (.bool b)
      | _ => .error [⟨path, invalidTypeMessage "boolean" v⟩]
  | .zEnum options _, path, v =>
      match v with
      | .str s =>
          if options.contains s then .ok (.str s)
          else .error [⟨path, invalidEnumMessage options v⟩]
      | _ => .error [⟨path, invalidEnumMessage options v⟩]
  | .zArray elem _, path, v =>
      match v with
      | .arr l =>
          match parseElemsWith (fun idx w => zodParse elem (path ++ [toString idx]) w) 0 l with
          | .ok vs => .ok (.arr vs)
          | .error es => .error es
      | _ => .error [⟨path, invalidTypeMessage "array" v⟩]
  | .zRecord valueSchema _, path, v =>
      match v with
      | .obj kvs =>
          match parseValsWith (fun k w => zodParse valueSchema (path ++ [k]) w) kvs with
          | .ok vs => .ok (.obj vs)
          | .error es => .error es
      | _ => .error [⟨path, invalidTypeMessage "object" v⟩]
  | .zObject shape, path, v =>
      match v with
      | .obj kvs =>
          match zodParseFields shape path kvs with
          | .ok vs => .ok (.obj vs)
          | .error es => .error es
      | _ => .error [⟨path, invalidTypeMessage "object" v⟩]
  | .zOptional inner _, path, v =>
      match v with
      | .undefined => .ok .undefined
      | _ => zodParse inner path v
  | .zDefault inner dflt _, path, v =>
      zodParse inner path (match v with | .undefined => dflt | w => w)
  | .zOther, _, v => .ok v

/-- Parse every declared field of an object schema against the input
object, collecting all issues; fields whose parsed value is `undefined`
(absent optionals) are omitted from the output, and unknown input keys
are stripped. -/
def zodParseFields : ZodShape → List String → List (String × Js) →
    Except (List ZodIssue) (List (String × Js))
  | .nil, _, _ => .ok []
  | .cons k sch rest, path, input =>
      match zodParse sch (path ++ [k]) (jsLookup input k), zodParseFields rest path input with
      | .ok v, .ok vs =>
          .ok (match v with | .undefined => vs | w => (k, w) :: vs)
      | .error es, .ok _ => .error es
      | .ok _, .error es => .error es
      | .error es, .error es2 => .error (es ++ es2)
end

/-- Render one issue as `<path>: <message>` (just the message at the
root). -/
def renderIssue (i : ZodIssue) : String :=
  match i.path with
  | [] => i.message
  | p => String.intercalate "." p ++ ": " ++ i.message

/-- Model of `parseResult.error.message`: a textual rendering of all
collected issues (the exact JSON layout zod uses is abbreviated to a
`path: message` list — claims only depend on this being the validator's
message, not on its layout). -/
def zodErrorMessage (issues : List ZodIssue) : String :=
  String.intercalate "; " (issues.map renderIssue)

/-- Model of `schema.safeParse(v)` as used by the dispatcher: the typed
(defaulted) value on success, or the error message on failure. -/
def safeParse (schema : ZodSchema) (v : Js) : Except String Js :=
  match zodParse schema [] v with
  | .ok w => .ok w
  | .error issues => .error (zodErrorMessage issues)

/-- JavaScript truthiness of a `string | undefined` value: `undefined`
and the empty string are falsy. -/
def strTruthy : Option String → Bool
  | some s => s != ""
  | none => false

/-- The configuration-relevant state of `AzureDevOpsClient`
(src/azureDevOpsClient.ts). The network connection and the lazily
cached sub-clients are handles with no bearing on the verified logic
and are elided; `defaultProject` is `config.defaultProject`. -/
structure AzureDevOpsClient where
  defaultProject : Option String

/-- Model of `AzureDevOpsClient.requireProject` (src/azureDevOpsClient.ts
lines 74-80): `const p = project || this.config.defaultProject;
if (!p) throw new Error(...); return p;`. A thrown error is modelled as
`Except.error` carrying the message. The function is pure: it reads but
never mutates the client. -/
def requireProject (client : AzureDevOpsClient) (project : Option String) :
    Except String String :=
  let p := if strTruthy project then project else client.defaultProject
  if strTruthy p then .ok (p.getD "")
  else .error "Project is required. Specify project parameter or set AZURE_DEVOPS_PROJECT environment variable."

/-- A value thrown by a handler: either an `Error` (whose `.message` the
dispatcher extracts) or any other value (which it coerces with
`String(...)`). -/
inductive JsThrown where
  | error (message : String)
  | value (v : Js)

/-- `error instanceof Error ? error.message : String(error)`
(src/index.ts line 244). -/
def extractMessage : JsThrown → String
  | .error m => m
  | .value v => jsToString v

/-- The observable behaviour of one handler invocation: the value it
returns or the value it throws, together with the upstream REST calls
it performed (in order). The upstream-call trace makes "no upstream
call is made" statements expressible. -/
structure HandlerResult where
  outcome : Except JsThrown Js
  upstreamCalls : List String

/-- One registry entry: a `(description, inputSchema, handler)` triple
as declared in the per-domain tool tables (src/tools/*.ts). The
`inputSchema` is optional because the dispatcher guards it with
`if (tool.inputSchema)`. -/
structure Tool where
  description : String
  inputSchema : Option ZodSchema
  handler : AzureDevOpsClient → Js → HandlerResult

/-- Own-property access on the merged registry object: the entry bound
to `name` by one of the domain tables (`allTools[name]` for a
registered name). The merged registry is modelled as the association
list of its entries. This is NOT the `in` operator: `in` also sees
inherited properties — see `nameIn`. -/
def lookupTool : List (String × Tool) → String → Option Tool
  | [], _ => none
  | (k, t) :: rest, name => if k = name then some t else lookupTool rest name

/-- The property keys every plain object (such as the spread-built
`allTools`) inherits from `Object.prototype`, all visible to the `in`
operator even though none is an own key of the registry. -/
def objectPrototypeKeys : List String :=
  ["constructor", "hasOwnProperty", "isPrototypeOf", "propertyIsEnumerable",
   "toLocaleString", "toString", "valueOf", "__defineGetter__", "__defineSetter__",
   "__lookupGetter__", "__lookupSetter__", "__proto__"]

/-- Model of `name in allTools` (src/index.ts line 199): true for an
own key of the merged registry AND for every property inherited from
`Object.prototype`. -/
def nameIn (tools : List (String × Tool)) (name : String) : Bool :=
  (lookupTool tools name).isSome || objectPrototypeKeys.contains name

/-- The validation step of the dispatcher (src/index.ts lines 214-230):
when the tool declares an input schema, `safeParse` runs on the RAW
`args` (which is `undefined` when the caller omitted `arguments`);
only when there is no schema does the `args || {}` substitution from
line 215 reach the handler. -/
def validateArgs (tool : Tool) (args : Js) : Except String Js :=
  match tool.inputSchema with
  | some schema => safeParse schema args
  | none => .ok (jsOr args (Js.obj []))

/-- The wire-level result of one dispatch: the single text content
entry and the error flag (`isError` is absent, i.e. false, on
success). -/
structure ToolResponse where
  text : String
  isError : Bool
deriving DecidableEq

/-- Model of the `CallToolRequest` handler registered in `main`
(src/index.ts lines 196-255). Returns the response envelope together
with the trace of upstream calls performed. The function is total:
every request produces an envelope, never an unhandled fault.

The guard is the `in` operator (line 199), so a name that is an
inherited `Object.prototype` property passes it without being a
registry entry. For such a name `allTools[name]` resolves to the
inherited member (a plain function or object): its `inputSchema`
property is `undefined`, so validation is skipped, and invoking
`tool.handler(...)` throws `TypeError: tool.handler is not a function`,
which the catch at line 243 wraps into an error envelope with no
upstream call made. -/
def callTool (tools : List (String × Tool)) (client : AzureDevOpsClient)
    (name : String) (args : Js) : ToolResponse × List String :=
  if !nameIn tools name then
    ({ text := "Unknown tool: " ++ name, isError := true }, [])
  else
    match lookupTool tools name with
    | some tool =>
        match validateArgs tool args with
        | .error msg => ({ text := "Invalid arguments: " ++ msg, isError := true }, [])
        | .ok validatedArgs =>
            match tool.handler client validatedArgs with
            | { outcome := .ok result, upstreamCalls := calls } =>
                ({ text := jsStringify result, isError := false }, calls)
            | { outcome := .error e, upstreamCalls := calls } =>
                ({ text := "Error executing " ++ name ++ ": " ++ extractMessage e, isError := true }, calls)
    | none =>
        ({ text := "Error executing " ++ name ++ ": tool.handler is not a function",
           isError := true }, [])

/-- A sequence of dispatches against the same server: the dispatcher
holds no mutable state, so each request is handled independently. -/
def callSequence (tools : List (String × Tool)) (client : AzureDevOpsClient)
    (requests : List (String × Js)) : List (ToolResponse × List String) :=
  requests.map fun r => callTool tools client r.1 r.2

/-- The `list_commits` input schema (src/tools/git.ts lines 51-59).
`.describe` on an `.optional()` or `.default()` chain attaches the text
to that outermost wrapper, which is where the source calls it. -/
def listCommitsSchema : ZodSchema :=
  .zObject (ZodShape.ofList
    [("project", .zOptional (.zString none) (some "Project name")),
     ("repository", .zString (some "Repository name or ID")),
     ("branch", .zOptional (.zString none) (some "Branch name (e.g., \"refs/heads/main\")")),
     ("author", .zOptional (.zString none) (some "Filter by author email")),
     ("fromDate", .zOptional (.zString none) (some "Start date (ISO format)")),
     ("toDate", .zOptional (.zString none) (some "End date (ISO format)")),
     ("top", .zDefault (.zOptional (.zNumber none) none) (.num 50) (some "Max commits to return"))])

/-- The `list_test_runs` input schema (src/tools/testResults.ts lines
7-11). -/
def listTestRunsSchema : ZodSchema :=
  .zObject (ZodShape.ofList
    [("project", .zOptional (.zString none) (some "Project name")),
     ("buildUri", .zOptional (.zString none) (some "Filter by build URI")),
     ("top", .zDefault (.zOptional (.zNumber none) none) (.num 25) (some "Max runs to return"))])

/-- The `$top: args.top || 50` field of the `list_commits` search
criteria (src/tools/git.ts line 77), computed from the validated
argument object. -/
def listCommitsEffectiveTop (validatedArgs : Js) : Js :=
  jsOr (jsGet validatedArgs "top") (Js.num 50)

/-- Coercion of a `Js` number to the integer the slice bound uses. -/
def jsToInt : Js → Int
  | .num n => n
  | _ => 0

/-- JavaScript `l.slice(0, endIdx)`: a negative end counts from the end
of the array. -/
def jsSlice0 {α : Type} (l : List α) (endIdx : Int) : List α :=
  if endIdx < 0 then l.take (l.length - endIdx.natAbs) else l.take endIdx.toNat

/-- `runs.slice(0, args.top || 25)` from the `list_test_runs` handler
(src/tools/testResults.ts line 22), applied to the upstream run list
and the validated argument object (the per-run reshaping is
independent of the truncation and elided). -/
def listTestRunsSelected (runs : List Js) (validatedArgs : Js) : List Js :=
  jsSlice0 runs (jsToInt (jsOr (jsGet validatedArgs "top") (Js.num 25)))

/-- One variable of an upstream build definition
(`definition.variables[name]`): `value`, `isSecret` and `allowOverride`
may each be absent. For a secret variable the upstream API itself omits
`value`, but the model lets it carry any stored value so that the
masking in the handler can be stated as a property of the handler
alone. -/
structure DefinitionVariable where
  value : Option String
  isSecret : Option Bool
  allowOverride : Option Bool

/-- A variable-group reference on an upstream build definition. -/
structure VariableGroupRef where
  id : Option Int
  name : Option String
  description : Option String

/-- The slice of an upstream `BuildDefinition` the
`get_pipeline_variables` handler reads. -/
structure BuildDefinition where
  name : Option String
  «variables» : Option (List (String × DefinitionVariable))
  variableGroups : Option (List VariableGroupRef)

/-- One entry of the `variables` list the handler returns. -/
structure PipelineVariableEntry where
  name : String
  value : Option String
  isSecret : Bool
  allowOverride : Bool
deriving DecidableEq

/-- One entry of the `variableGroups` list the handler returns. -/
structure VariableGroupSummary where
  id : Option Int
  name : Option String
  description : Option String
deriving DecidableEq

/-- The result object of the `get_pipeline_variables` handler. -/
structure PipelineVariablesResult where
  pipelineId : Int
  pipelineName : Option String
  «variables» : List PipelineVariableEntry
  variableGroups : Option (List VariableGroupSummary)
deriving DecidableEq

/-- The per-variable push of the `get_pipeline_variables` loop
(src/tools/builds.ts lines 446-453): `value: variable.isSecret ? '***'
: variable.value`, `isSecret: variable.isSecret || false`,
`allowOverride: variable.allowOverride || false`. -/
def maskVariable (nv : String × DefinitionVariable) : PipelineVariableEntry :=
  { name := nv.1
    value := if nv.2.isSecret.getD false then some "***" else nv.2.value
    isSecret := nv.2.isSecret.getD false
    allowOverride := nv.2.allowOverride.getD false }

/-- The reshaping performed by the `get_pipeline_variables` handler
(src/tools/builds.ts lines 432-465) on the definition fetched from
upstream. The `requireProject` resolution and the `getDefinition` fetch
itself precede this and are orthogonal to the masking. -/
def get_pipeline_variables (pipelineId : Int) (definition : BuildDefinition) :
    PipelineVariablesResult :=
  { pipelineId := pipelineId
    pipelineName := definition.name
    «variables» := (definition.«variables».getD []).map maskVariable
    variableGroups := definition.variableGroups.map
      (List.map fun vg => { id := vg.id, name := vg.name, description := vg.description }) }

/-- Two upstream variable tables that may differ only in the stored
values of secret variables: same names in the same order, same
`isSecret` and `allowOverride` flags, and equal values wherever the
variable is not marked secret. -/
def secretsOnlyDiffVars :
    Option (List (String × DefinitionVariable)) →
    Option (List (String × DefinitionVariable)) → Prop
  | none, none => True
  | some vs, some ws =>
      List.Forall₂
        (fun a b => a.1 = b.1 ∧ a.2.isSecret = b.2.isSecret ∧
          a.2.allowOverride = b.2.allowOverride ∧
          (a.2.isSecret.getD false = false → a.2.value = b.2.value)) vs ws
  | _, _ => False

/-- The typed arguments of the `query_work_items` handler
(src/tools/workItems.ts lines 18-28) after validation; `top` is always
populated by its schema default. -/
structure QueryWorkItemsArgs where
  project : Option String
  wiql : Option String
  workItemType : Option String
  state : Option String
  assignedTo : Option String
  areaPath : Option String
  iterationPath : Option String
  tags : Option String
  top : Int

/-- The WIQL `WHERE` conditions assembled from the simple filters
(src/tools/workItems.ts lines 36-55), in push order. -/
def wiqlConditions (project : String) (args : QueryWorkItemsArgs) : List String :=
  ["[System.TeamProject] = " ++ quoteSq project]
  ++ (if strTruthy args.workItemType then
        ["[System.WorkItemType] = " ++ quoteSq (args.workItemType.getD "")] else [])
  ++ (if strTruthy args.state then
        ["[System.State] = " ++ quoteSq (args.state.getD "")] else [])
  ++ (if strTruthy args.assignedTo then
        ["[System.AssignedTo] = " ++ quoteSq (args.assignedTo.getD "")] else [])
  ++ (if strTruthy args.areaPath then
        ["[System.AreaPath] UNDER " ++ quoteSq (args.areaPath.getD "")] else [])
  ++ (if strTruthy args.iterationPath then
        ["[System.IterationPath] UNDER " ++ quoteSq (args.iterationPath.getD "")] else [])
  ++ (if strTruthy args.tags then
        ["[System.Tags] CONTAINS " ++ quoteSq (args.tags.getD "")] else [])

/-- The WIQL template literal (src/tools/workItems.ts lines 57-60),
with its original line breaks and indentation. -/
def buildWiqlQuery (conditions : List String) : String :=
  "SELECT [System.Id], [System.Title], [System.State], [System.AssignedTo], [System.WorkItemType]\n                FROM WorkItems\n                WHERE "
    ++ String.intercalate " AND " conditions
    ++ "\n                ORDER BY [System.ChangedDate] DESC"

/-- The query string the `query_work_items` handler submits to
`witApi.queryByWiql` (src/tools/workItems.ts lines 30-63): after
resolving the project, `let wiql = args.wiql; if (!wiql) \x7b build from
filters \x7d`. A `requireProject` throw (no query submitted) propagates
as `Except.error`. -/
def submittedWiql (client : AzureDevOpsClient) (args : QueryWorkItemsArgs) :
    Except String String :=
  match requireProject client args.project with
  | .error e => .error e
  | .ok project =>
      if strTruthy args.wiql then .ok (args.wiql.getD "")
      else .ok (buildWiqlQuery (wiqlConditions project args))

/-- The `test_connection` registry entry (src/tools/projects.ts lines
5-44): an empty object schema. The handler body reshapes upstream data
and is outside the registry-core scope; the stand-in records the
upstream call it would make. No claim depends on this body: the claims
it appears in either quantify over handlers or are decided before the
handler runs. -/
def test_connection_tool : Tool :=
  { description := "Test the connection to Azure DevOps Server and verify authentication"
    inputSchema := some (.zObject .nil)
    handler := fun _ _ =>
      { outcome := .ok (Js.obj [("success", Js.bool true)])
        upstreamCalls := ["core.getProjects"] } }

/-- The `get_project` registry entry (src/tools/projects.ts lines
64-84): one required string field `project`. Handler body elided as in
`test_connection_tool`. -/
def get_project_tool : Tool :=
  { description := "Get detailed information about a specific project"
    inputSchema := some (.zObject (.cons "project" (.zString (some "Project name or ID")) .nil))
    handler := fun _ _ =>
      { outcome := .ok (Js.obj [("id", Js.str "p-1")])
        upstreamCalls := ["core.getProject"] } }

/-- A registry entry whose handler raises a simulated upstream 404
mid-execution, the situation the dispatch boundary must absorb. Used as
a concrete input to the error-wrapping theorem. -/
def failing_build_tool : Tool :=
  { description := "Get detailed information about a specific build"
    inputSchema := some (.zObject .nil)
    handler := fun _ _ =>
      { outcome := .error (.error "Build not found")
        upstreamCalls := ["build.getBuild"] } }

/-- A small concrete registry drawn from the merged tool tables, used
as a concrete input by the witnesses. -/
def demoRegistry : List (String × Tool) :=
  [("test_connection", test_connection_tool),
   ("get_project", get_project_tool),
   ("get_build", failing_build_tool)]

/-- A concrete client with no configured default project. -/
def demoClient : AzureDevOpsClient := { defaultProject := none }

/-- A concrete upstream build definition with one secret and one plain
variable, used as a concrete input by the masking witness. -/
def demoSecretDef : BuildDefinition :=
  { name := some "CI"
    «variables» := some
      [("apiToken", { value := some "hunter2", isSecret := some true, allowOverride := none }),
       ("configuration", { value := some "Release", isSecret := none, allowOverride := some true })]
    variableGroups := none }

/-- Concrete `query_work_items` arguments carrying an explicit WIQL
query plus simple filters that the handler must ignore. -/
def demoQueryArgs : QueryWorkItemsArgs :=
  { project := some "Contoso"
    wiql := some "SELECT [System.Id] FROM WorkItems"
    workItemType := some "Bug"
    state := some "Active"
    assignedTo := none
    areaPath := none
    iterationPath := none
    tags := none
    top := 50 }

/-- The same call with every ignored filter changed. -/
def demoQueryArgs2 : QueryWorkItemsArgs :=
  { project := some "Contoso"
    wiql := some "SELECT [System.Id] FROM WorkItems"
    workItemType := none
    state := none
    assignedTo := some "@Me"
    areaPath := some "Contoso\\Web"
    iterationPath := some "Contoso\\Sprint 9"
    tags := some "regression"
    top := 10 }

/-- C1 (code bug evidence): the unknown-tool guard is `name in
allTools` (src/index.ts line 199), and the `in` operator also finds
inherited `Object.prototype` properties. For a name that is not a key
of the merged registry but is such a property — `toString` here — the
dispatcher does NOT return `Unknown tool: toString`: the inherited
member is picked up as the tool, its missing `handler` throws a
`TypeError` when invoked, and the caller receives `Error executing
toString: tool.handler is not a function` instead. For every name
outside `Object.prototype` the claimed envelope is produced (first
conjunct), and no input throws across the dispatch boundary, since
`callTool` is total. -/
theorem unknown_tool_prototype_leak :
    (∀ (tools : List (String × Tool)) (client : AzureDevOpsClient)
        (name : String) (args : Js),
        lookupTool tools name = none → name ∉ objectPrototypeKeys →
        callTool tools client name args
          = ({ text := "Unknown tool: " ++ name, isError := true }, []))
    ∧ callTool demoRegistry demoClient "toString" (Js.obj [])
        = ({ text := "Error executing " ++ "toString" ++ ": tool.handler is not a function",
             isError := true }, [])
    ∧ callTool demoRegistry demoClient "toString" (Js.obj [])
        ≠ ({ text := "Unknown tool: " ++ "toString", isError := true }, []) := by
  refine ⟨?_, rfl, fun h => absurd h (by decide)⟩
  intro tools client name args hlook hproto
  simp [callTool, nameIn, hlook, hproto]

/-- Witness for C1: a name absent from both the registry and
`Object.prototype` does produce the unknown-tool envelope. -/
theorem unknown_tool_prototype_leak_witness :
    callTool demoRegistry demoClient "nonexistent_tool" (Js.obj [])
      = ({ text := "Unknown tool: " ++ "nonexistent_tool", isError := true }, []) :=
  unknown_tool_prototype_leak.1 demoRegistry demoClient "nonexistent_tool" (Js.obj [])
    rfl (by decide)

/-- C2: for every call whose name is registered and whose raw arguments
fail schema validation, the dispatcher returns an error envelope whose
text is `Invalid arguments: ` followed by the validator's message, and
the handler is never invoked: the result is fixed by the schema alone
(the right-hand side does not mention `tool.handler`) and the upstream
call trace is empty, so no upstream call is made before validation
completes. -/
theorem dispatch_invalid_arguments (tools : List (String × Tool))
    (client : AzureDevOpsClient) (name : String) (args : Js) (tool : Tool) (msg : String)
    (hlook : lookupTool tools name = some tool)
    (hval : validateArgs tool args = .error msg) :
    callTool tools client name args
      = ({ text := "Invalid arguments: " ++ msg, isError := true }, []) := by
  simp [callTool, nameIn, hlook, hval]

/-- Witness for C2: calling `get_project` (one required string field
`project`) with `{}` yields the invalid-arguments envelope naming the
field, and no upstream call. -/
theorem dispatch_invalid_arguments_witness :
    callTool demoRegistry demoClient "get_project" (Js.obj [])
      = ({ text := "Invalid arguments: " ++ "project: Required", isError := true }, []) :=
  dispatch_invalid_arguments demoRegistry demoClient "get_project" (Js.obj [])
    get_project_tool "project: Required" rfl rfl

/-- C3: for every call whose handler raises an error of any kind during
execution, the dispatcher catches it and returns an error envelope
whose text is `Error executing <name>: <message>`, containing both the
operation name and the underlying message; the fault never propagates
(the equation shows the catch produces an ordinary envelope), and the
dispatcher remains usable for subsequent calls: in any sequence of
requests each one is answered exactly as a standalone call, since the
dispatcher holds no mutable state. -/
theorem dispatch_handler_error_wrapped (tools : List (String × Tool))
    (client : AzureDevOpsClient) (name : String) (args : Js) (tool : Tool)
    (validated : Js) (e : JsThrown) (calls : List String)
    (hlook : lookupTool tools name = some tool)
    (hval : validateArgs tool args = .ok validated)
    (hrun : tool.handler client validated = { outcome := .error e, upstreamCalls := calls }) :
    callTool tools client name args
      = ({ text := "Error executing " ++ name ++ ": " ++ extractMessage e,
           isError := true }, calls)
    ∧ ∀ (requests : List (String × Js)) (i : Nat),
        (callSequence tools client requests)[i]?
          = (requests[i]?).map fun r => callTool tools client r.1 r.2 := by
  constructor
  · simp [callTool, nameIn, hlook, hval, hrun]
  · intro requests i
    simp [callSequence, List.getElem?_map]

/-- Witness for C3: a handler raising a simulated upstream 404 on
`get_build` yields the wrapped error envelope containing the tool name
and the underlying message. -/
theorem dispatch_handler_error_wrapped_witness :
    callTool demoRegistry demoClient "get_build" (Js.obj [])
      = ({ text := "Error executing " ++ "get_build" ++ ": "
             ++ extractMessage (.error "Build not found"),
           isError := true }, ["build.getBuild"]) :=
  (dispatch_handler_error_wrapped demoRegistry demoClient "get_build" (Js.obj [])
    failing_build_tool (Js.obj []) (.error "Build not found") ["build.getBuild"]
    rfl rfl rfl).1

/-- C4 (code bug evidence): `test_connection` declares the empty object
schema, yet a call with absent (`undefined`) arguments is REJECTED with
`Invalid arguments: Required` instead of validating as success. The
dispatcher substitutes `args || \x7b\x7d` into `validatedArgs`
(src/index.ts line 215) — showing the intent the claim describes — but
then runs `safeParse` on the raw `args` (line 217), and zod rejects
`undefined` for every object schema. -/
theorem test_connection_absent_args_rejected :
    callTool demoRegistry demoClient "test_connection" Js.undefined
      = ({ text := "Invalid arguments: " ++ "Required", isError := true }, []) := rfl

/-- C5: the discovery-document generator is total — for every schema
tree it returns a document (it is a terminating total function, so this
holds by construction) — and an unrecognized schema kind degrades to
the generic accepts-anything entry `\x7btype: "object"\x7d` instead of
raising. -/
theorem zodToJsonSchema_total_and_fallback :
    (∀ s : ZodSchema, ∃ doc : Js, zodToJsonSchema s = doc)
    ∧ zodToJsonSchema .zOther = Js.obj [("type", Js.str "object")] :=
  ⟨fun s => ⟨zodToJsonSchema s, rfl⟩, rfl⟩

/-- Reading back the string array pushed into the `required` field. -/
theorem filterMap_str_comp (l : List String) :
    List.filterMap ((fun v => match v with | Js.str s => some s | _ => none) ∘ Js.str) l
      = l := by
  induction l with
  | nil => rfl
  | cons a as ih =>
      simp only [List.filterMap_cons, Function.comp_apply]
      exact congrArg (List.cons a) ih

/-- The `required` array of the document generated for an object schema
is exactly the key list accumulated by the generator's loop (including
the case where the key is omitted because the list is empty). -/
theorem docRequired_zodToJsonSchema (shape : ZodShape) :
    docRequired (zodToJsonSchema (.zObject shape)) = requiredKeysOf shape := by
  cases h : requiredKeysOf shape with
  | nil => simp [zodToJsonSchema, docRequired, jsGet, jsLookup, requiredField, h]
  | cons a as =>
      simp [zodToJsonSchema, docRequired, jsGet, jsLookup, requiredField, h,
        filterMap_str_comp]

/-- In an association list with pairwise-distinct keys, a key
determines its value. -/
theorem assoc_nodup_value_unique {α : Type} {l : List (String × α)}
    (h : (l.map Prod.fst).Nodup) {k : String} {a b : α}
    (ha : (k, a) ∈ l) (hb : (k, b) ∈ l) : a = b := by
  induction l with
  | nil => cases ha
  | cons p rest ih =>
      rw [List.map_cons, List.nodup_cons] at h
      rcases List.mem_cons.mp ha with ha1 | ha1 <;>
        rcases List.mem_cons.mp hb with hb1 | hb1
      · rw [← ha1] at hb1
        exact (((Prod.mk.injEq _ _ _ _).mp hb1).2).symm
      · exact absurd (List.mem_map.mpr ⟨(k, b), hb1, by rw [← ha1]⟩) h.1
      · exact absurd (List.mem_map.mpr ⟨(k, a), ha1, by rw [← hb1]⟩) h.1
      · exact ih h.2 ha1 hb1

/-- C6: for every object-kind schema with pairwise-distinct field names
(JavaScript object literals cannot repeat a key) and every field in it,
the generated discovery document lists that field in its `required`
array iff the field schema carries neither an optional marker nor a
default wrapper. -/
theorem zodToJsonSchema_required_iff (shape : ZodShape)
    (hnodup : (shape.toList.map Prod.fst).Nodup)
    (key : String) (sch : ZodSchema) (hmem : (key, sch) ∈ shape.toList) :
    key ∈ docRequired (zodToJsonSchema (.zObject shape))
      ↔ (isOptionalTop sch = false ∧ isDefaultTop sch = false) := by
  rw [docRequired_zodToJsonSchema]
  unfold requiredKeysOf
  constructor
  · intro hk
    obtain ⟨p, hp, hpk⟩ := List.mem_map.mp hk
    obtain ⟨hpmem, hpred⟩ := List.mem_filter.mp hp
    have hsch : p.2 = sch := by
      have : (key, p.2) ∈ shape.toList := by
        have hp2 : p = (key, p.2) := by
          rw [← hpk]
        rw [← hp2]
        exact hpmem
      exact assoc_nodup_value_unique hnodup this hmem
    rw [hsch] at hpred
    simpa [Bool.and_eq_true, Bool.not_eq_true'] using hpred
  · intro hflags
    refine List.mem_map.mpr ⟨(key, sch), List.mem_filter.mpr ⟨hmem, ?_⟩, rfl⟩
    simp [hflags.1, hflags.2]

/-- Witness for C6: in the `list_commits` schema only `repository` is
listed as required — it has no wrapper, while `top` carries a default
and is therefore not required. -/
theorem zodToJsonSchema_required_iff_witness :
    ("repository" ∈ docRequired (zodToJsonSchema listCommitsSchema)
      ↔ (isOptionalTop (.zString (some "Repository name or ID")) = false
          ∧ isDefaultTop (.zString (some "Repository name or ID")) = false)) :=
  zodToJsonSchema_required_iff _ (by decide) "repository"
    (.zString (some "Repository name or ID")) (by simp [listCommitsSchema, ZodShape.ofList, ZodShape.toList])

/-- C7 counterexample: the claim says `requireProject` returns
`explicitName` whenever it is given; but for the explicitly given empty
string with default project `Alpha` the code returns `Alpha`, not the
given name, because `project || this.config.defaultProject` treats the
empty string as absent (JavaScript falsiness). -/
theorem requireProject_empty_string_counterexample :
    requireProject { defaultProject := some "Alpha" } (some "") = .ok "Alpha"
    ∧ requireProject { defaultProject := some "Alpha" } (some "") ≠ .ok "" :=
  ⟨rfl, fun h => absurd (Except.ok.inj h) (by decide)⟩

/-- C7 (amended): `requireProject` returns `explicitName` when it is a
non-empty string; when it is absent or empty it returns the configured
default project when that is a non-empty string; when neither is a
non-empty string it fails with the error message containing `Project is
required`, leaving the client facade unchanged (the embedding is a pure
function of the client). -/
theorem requireProject_resolution (client : AzureDevOpsClient) (project : Option String) :
    (∀ s, project = some s → s ≠ "" → requireProject client project = .ok s)
    ∧ ((project = none ∨ project = some "") →
        ∀ d, client.defaultProject = some d → d ≠ "" →
          requireProject client project = .ok d)
    ∧ ((project = none ∨ project = some "") →
        (client.defaultProject = none ∨ client.defaultProject = some "") →
        requireProject client project
          = .error "Project is required. Specify project parameter or set AZURE_DEVOPS_PROJECT environment variable.") := by
  refine ⟨?_, ?_, ?_⟩
  · intro s hs hne
    subst hs
    simp [requireProject, strTruthy, bne_iff_ne, hne]
  · intro hp d hd hne
    rcases hp with h | h <;> subst h <;>
      simp [requireProject, strTruthy, bne_iff_ne, hd, hne]
  · intro hp hd
    rcases hp with h | h <;> rcases hd with h2 | h2 <;> subst h <;>
      simp [requireProject, strTruthy, bne_iff_ne, h2]

/-- Witness for C7 (amended): a non-empty explicit name wins over the
configured default. -/
theorem requireProject_resolution_witness :
    requireProject { defaultProject := some "Fallback" } (some "Alpha") = .ok "Alpha" :=
  (requireProject_resolution { defaultProject := some "Fallback" } (some "Alpha")).1
    "Alpha" rfl (by decide)

/-- Two variable tables related by `secretsOnlyDiffVars` mask to the
same output list. -/
theorem maskVariable_congr {vs ws : List (String × DefinitionVariable)}
    (h : List.Forall₂
      (fun a b => a.1 = b.1 ∧ a.2.isSecret = b.2.isSecret ∧
        a.2.allowOverride = b.2.allowOverride ∧
        (a.2.isSecret.getD false = false → a.2.value = b.2.value)) vs ws) :
    vs.map maskVariable = ws.map maskVariable := by
  induction h with
  | nil => rfl
  | @cons a b as bs hab _ ih =>
      obtain ⟨h1, h2, h3, h4⟩ := hab
      have hval : (if b.2.isSecret.getD false then some "***" else a.2.value)
          = (if b.2.isSecret.getD false then some "***" else b.2.value) := by
        cases hb : b.2.isSecret.getD false with
        | true => simp
        | false => simp [h4 (by rw [h2]; exact hb)]
      simp [maskVariable, h1, h2, h3, hval, ih]

/-- C8: the `get_pipeline_variables` handler masks secrets — every
variable the definition marks secret comes back with the literal value
`***` — and, equivalently, its output is identical for any two upstream
definitions that differ only in the stored values of secret
variables. -/
theorem get_pipeline_variables_masking (pid : Int) (d1 d2 : BuildDefinition) :
    (∀ vs, d1.«variables» = some vs →
      List.Forall₂ (fun nv out => nv.2.isSecret = some true → out.value = some "***")
        vs (get_pipeline_variables pid d1).«variables»)
    ∧ (d1.name = d2.name → d1.variableGroups = d2.variableGroups →
        secretsOnlyDiffVars d1.«variables» d2.«variables» →
        get_pipeline_variables pid d1 = get_pipeline_variables pid d2) := by
  constructor
  · intro vs hvs
    simp only [get_pipeline_variables, hvs, Option.getD_some]
    rw [List.forall₂_map_right_iff, List.forall₂_same]
    intro nv _ hsec
    simp [maskVariable, hsec]
  · intro hname hgroups hvars
    cases h1 : d1.«variables» with
    | none =>
        cases h2 : d2.«variables» with
        | none => simp [get_pipeline_variables, hname, hgroups, h1, h2]
        | some ws => rw [h1, h2] at hvars; cases hvars
    | some vs =>
        cases h2 : d2.«variables» with
        | none => rw [h1, h2] at hvars; cases hvars
        | some ws =>
            rw [h1, h2] at hvars
            simp [get_pipeline_variables, hname, hgroups, h1, h2,
              maskVariable_congr hvars]

/-- Witness for C8: in a concrete definition with one secret and one
plain variable, the secret one comes back as `***`. -/
theorem get_pipeline_variables_masking_witness :
    List.Forall₂ (fun nv out => nv.2.isSecret = some true → out.value = some "***")
      ([("apiToken", { value := some "hunter2", isSecret := some true, allowOverride := none }),
        ("configuration", { value := some "Release", isSecret := none, allowOverride := some true })]
        : List (String × DefinitionVariable))
      (get_pipeline_variables 7 demoSecretDef).«variables» :=
  (get_pipeline_variables_masking 7 demoSecretDef demoSecretDef).1 _ rfl

/-- C9: the listing tools replace a falsy `top` with the schema default
via `args.top || N`, so an explicit `top = 0` behaves exactly as an
omitted `top`: for `list_commits` (default 50) the full
validate-then-resolve pipeline yields the same effective `$top` (namely
50) for `top: 0` as for an absent `top`, and for `list_test_runs`
(default 25) the truncation `runs.slice(0, args.top || 25)` selects the
same runs. An explicit limit of 0 can therefore never produce a
zero-length limit. -/
theorem listing_top_zero_same_as_absent (repo : String) (runs : List Js) :
    (safeParse listCommitsSchema
        (Js.obj [("repository", .str repo), ("top", .num 0)])).map listCommitsEffectiveTop
      = (safeParse listCommitsSchema
          (Js.obj [("repository", .str repo)])).map listCommitsEffectiveTop
    ∧ (safeParse listCommitsSchema
        (Js.obj [("repository", .str repo), ("top", .num 0)])).map listCommitsEffectiveTop
      = .ok (.num 50)
    ∧ (safeParse listTestRunsSchema (Js.obj [("top", .num 0)])).map
          (listTestRunsSelected runs)
      = (safeParse listTestRunsSchema (Js.obj [])).map (listTestRunsSelected runs) :=
  ⟨rfl, rfl, rfl⟩

/-- C10: whenever `query_work_items` is given a non-empty `wiql`
string, the query submitted upstream is exactly that string, and the
submitted query does not depend on the `workItemType`, `state`,
`assignedTo`, `areaPath`, `iterationPath` or `tags` filters: any second
argument object with the same `wiql` and `project` produces the same
submission, whatever its filters. -/
theorem query_work_items_wiql_passthrough (client : AzureDevOpsClient)
    (args args2 : QueryWorkItemsArgs) (s : String)
    (hw : args.wiql = some s) (hne : s ≠ "")
    (hw2 : args2.wiql = args.wiql) (hp2 : args2.project = args.project) :
    (∀ q, submittedWiql client args = .ok q → q = s)
    ∧ submittedWiql client args2 = submittedWiql client args := by
  have key : ∀ (a : QueryWorkItemsArgs), a.wiql = some s → a.project = args.project →
      submittedWiql client a
        = match requireProject client args.project with
          | .error e => .error e
          | .ok _ => .ok s := by
    intro a ha hp
    unfold submittedWiql
    rw [hp, ha]
    cases requireProject client args.project with
    | error e => rfl
    | ok project => simp [strTruthy, bne_iff_ne, hne]
  constructor
  · intro q hq
    rw [key args hw rfl] at hq
    cases hreq : requireProject client args.project with
    | error e => rw [hreq] at hq; cases hq
    | ok project => rw [hreq] at hq; exact (Except.ok.inj hq).symm
  · rw [key args hw rfl, key args2 (hw2.trans hw) hp2]

/-- Witness for C10: two concrete calls sharing the same non-empty
`wiql` but with entirely different simple filters submit the same
query. -/
theorem query_work_items_wiql_passthrough_witness :
    submittedWiql { defaultProject := none } demoQueryArgs2
      = submittedWiql { defaultProject := none } demoQueryArgs :=
  (query_work_items_wiql_passthrough { defaultProject := none }
    demoQueryArgs demoQueryArgs2 "SELECT [System.Id] FROM WorkItems"
    rfl (by decide) rfl rfl).2

end AzureDevOpsMcp
